import Mathlib

/-!
Verification of the chained page source (RPageSourceChain, RPageStorageChain.cxx).

The development shallowly embeds the composition layer: the index-translation
tables built by InitializeVariables, the schema comparison of
CompareFileMetaData, the two PopulatePage dispatch paths, ReleasePage with its
buffer-identity tracker, and Clone.  External collaborators (the descriptor
object model, the single-source page sources, RPage) are modelled from the
specification as plain data; machine-level unsigned arithmetic is made explicit
where it matters (the wrap-around of GetNClusters() - 1).
-/

/-- Modelled from the spec: the per-column range of one cluster, carrying
the first element index and the element count (RClusterDescriptor::RColumnRange,
external to the chained source). -/
structure RColumnRange where
  fFirstElementIndex : Nat
  fNElements : Nat
deriving DecidableEq

/-- Modelled from the spec: a cluster descriptor exposing, per column id, a
column range (external descriptor object model). -/
structure RClusterDescriptor where
  columnRanges : List RColumnRange
deriving DecidableEq

/-- GetColumnRange j yields column j's range of this cluster, if present. -/
def RClusterDescriptor.GetColumnRange (cd : RClusterDescriptor) (j : Nat) : Option RColumnRange :=
  cd.columnRanges[j]?

/-- Modelled from the spec: a field descriptor with decidable equality
(its content is abstracted to one value; only equality is consumed). -/
structure RFieldDescriptor where
  content : Nat
deriving DecidableEq

/-- Modelled from the spec: a column descriptor with decidable equality. -/
structure RColumnDescriptor where
  content : Nat
deriving DecidableEq

/-- Modelled from the spec: the descriptor of one source (or the merged,
attached descriptor of the chain): fields, columns and clusters, plus
FindClusterId, the external lookup of the cluster owning a global index, kept
abstract as a function field because its implementation is outside this
repository. -/
structure RNTupleDescriptor where
  fieldDescriptors : List RFieldDescriptor
  columnDescriptors : List RColumnDescriptor
  clusterDescriptors : List RClusterDescriptor
  findClusterId : Nat → Nat → Nat

def RNTupleDescriptor.GetNFields (d : RNTupleDescriptor) : Nat :=
  d.fieldDescriptors.length

def RNTupleDescriptor.GetNColumns (d : RNTupleDescriptor) : Nat :=
  d.columnDescriptors.length

def RNTupleDescriptor.GetNClusters (d : RNTupleDescriptor) : Nat :=
  d.clusterDescriptors.length

def RNTupleDescriptor.GetFieldDescriptor (d : RNTupleDescriptor) (j : Nat) :
    Option RFieldDescriptor :=
  d.fieldDescriptors[j]?

def RNTupleDescriptor.GetColumnDescriptor (d : RNTupleDescriptor) (j : Nat) :
    Option RColumnDescriptor :=
  d.columnDescriptors[j]?

def RNTupleDescriptor.GetClusterDescriptor (d : RNTupleDescriptor) (cid : Nat) :
    Option RClusterDescriptor :=
  d.clusterDescriptors[cid]?

/-- An empty descriptor: the chain's fDescriptor before Attach fills it. -/
def emptyDescriptor : RNTupleDescriptor :=
  { fieldDescriptors := [], columnDescriptors := [], clusterDescriptors := [],
    findClusterId := fun _ _ => 0 }

/-- Modelled from the spec: the cluster-attribution record attached to a page
(RPage::RClusterInfo): cluster id and the first element index of that cluster. -/
structure RClusterInfo where
  fId : Nat
  fIndexOffset : Nat
deriving DecidableEq

/-- Modelled from the spec: a page, carrying a backing-buffer identity (0 models
the null buffer), the first global element of its window, and the cluster
attribution (RPage, external to the chained source). -/
structure RPage where
  fBuffer : Nat
  fGlobalRangeFirst : Nat
  fClusterInfo : RClusterInfo
deriving DecidableEq

def RPage.IsNull (p : RPage) : Bool :=
  p.fBuffer == 0

def RPage.GetBuffer (p : RPage) : Nat :=
  p.fBuffer

def RPage.GetGlobalRangeFirst (p : RPage) : Nat :=
  p.fGlobalRangeFirst

/-- SetWindow re-windows a page to a new first global element and a new cluster
attribution, leaving the backing buffer untouched. -/
def RPage.SetWindow (p : RPage) (globalFirst : Nat) (ci : RClusterInfo) : RPage :=
  { p with fGlobalRangeFirst := globalFirst, fClusterInfo := ci }

/-- Modelled from the spec: the read options handed through unchanged. -/
structure RNTupleReadOptions where
  val : Nat
deriving DecidableEq

/-- Modelled from the spec: one underlying page source.  Its entry count,
descriptor and page-producing operations are the external contract the chain
consumes; cloneDepth tracks object identity so that a clone is a distinct
object carrying the same data. -/
structure RPageSource where
  cloneDepth : Nat
  nEntries : Nat
  descriptor : RNTupleDescriptor
  popPageGlobal : Nat → Nat → RPage
  popPageCluster : Nat → Nat → Nat → RPage

def RPageSource.GetNEntries (s : RPageSource) : Nat :=
  s.nEntries

/-- Modelled from the spec: RPageSource::Clone produces an independent
duplicate of a source sharing the same backing storage; the duplicate is a new
object (cloneDepth grows) with the same data. -/
def RPageSource.CloneSrc (s : RPageSource) : RPageSource :=
  { s with cloneDepth := s.cloneDepth + 1 }

/-- The page-to-source tracker fPageMapper: a finite map from buffer identity
to owning source index (std::unordered_map). -/
abbrev PageMapper := Nat → Option Nat

def PageMapper.empty : PageMapper := fun _ => none

/-- Emplace semantics of std::unordered_map: insert only when the key is absent. -/
def PageMapper.emplace (m : PageMapper) (k v : Nat) : PageMapper :=
  fun x =>
    if x = k then
      match m k with
      | some w => some w
      | none => some v
    else m x

def PageMapper.eraseKey (m : PageMapper) (k : Nat) : PageMapper :=
  fun x => if x = k then none else m x

/-- Error outcomes of the embedded operations.  atOutOfRange models a failing
bounds-checked container access (std::vector::at or a descriptor lookup);
indexOutOfRange models the R__ASSERT guarding dispatch; releaseViolation the
R__ASSERT in ReleasePage.  constructionPrecondition is the distinct structured
error the spec postulates for empty source lists; it is listed so that its
absence from every code path can be stated, the code never produces it. -/
inductive ChainErr where
  | atOutOfRange
  | indexOutOfRange
  | releaseViolation
  | constructionPrecondition
deriving DecidableEq

/-- One diagnostic emitted by CompareFileMetaData (a R__WARNING_HERE line):
which source mismatched, and on what. -/
inductive Diag where
  | countMismatch (i : Nat)
  | fieldMismatch (i j : Nat)
  | columnMismatch (i j : Nat)
deriving DecidableEq

/-- First j with j0 ≤ j < j0 + fuel and p j, scanning upward: the shape of the
inner comparison loops of CompareFileMetaData. -/
def firstHit (p : Nat → Bool) : Nat → Nat → Option Nat
  | _, 0 => none
  | j, fuel + 1 => if p j then some j else firstHit p (j + 1) fuel

/-- The comparison of source i against source 0 (one iteration of the outer
loop of RPageSourceChain::CompareFileMetaData, lines 70-102): first the field
and column counts, then every field descriptor, then every column descriptor;
the first mismatch is reported. -/
def compareStep (d0 di : RNTupleDescriptor) (i : Nat) : Option Diag :=
  if d0.GetNFields ≠ di.GetNFields ∨ d0.GetNColumns ≠ di.GetNColumns then
    some (Diag.countMismatch i)
  else
    match firstHit (fun j => decide (d0.GetFieldDescriptor j ≠ di.GetFieldDescriptor j))
        0 d0.GetNFields with
    | some j => some (Diag.fieldMismatch i j)
    | none =>
      match firstHit (fun j => decide (d0.GetColumnDescriptor j ≠ di.GetColumnDescriptor j))
          0 d0.GetNColumns with
      | some j => some (Diag.columnMismatch i j)
      | none => none

/-- The outer loop of CompareFileMetaData: sources i = 1.. are compared against
source 0; the first mismatch sets the flag, emits its diagnostic and breaks. -/
def compareLoop (d0 : RNTupleDescriptor) : Nat → List RPageSource → Bool × List Diag
  | _, [] => (false, [])
  | i, s :: rest =>
    match compareStep d0 s.descriptor i with
    | some dg => (true, [dg])
    | none => compareLoop d0 (i + 1) rest

/-- RPageSourceChain::CompareFileMetaData (lines 68-104): returns the value of
the degraded-mode flag fUnsafe and the diagnostics emitted. -/
def CompareFileMetaData (sources : List RPageSource) : Bool × List Diag :=
  match sources with
  | [] => (false, [])
  | s0 :: rest => compareLoop s0.descriptor 1 rest

/-- The prefix-sum tables of InitializeVariables, lines 109-116:
table[0] = 0 and table[i+1] = table[i] + counts[i]. -/
def prefixSums : List Nat → List Nat
  | [] => [0]
  | c :: cs => 0 :: (prefixSums cs).map (fun x => c + x)

/-- The 64-bit unsigned decrement used for lastClusterId = GetNClusters() - 1
(line 129): wraps to 2^64 - 1 when the cluster count is zero. -/
def wrapSub1 (n : Nat) : Nat :=
  (n + (2 ^ 64 - 1)) % 2 ^ 64

/-- The contribution of one source to the per-column element table (the inner
loop body of InitializeVariables, lines 128-133): for each column j below
nCols, (firstElementIndex + nElements) of column j's range in the cluster at
index GetNClusters() - 1 (computed with unsigned wrap-around); any failing
descriptor access is the out-of-range error. -/
def sourceColContrib (nCols : Nat) (s : RPageSource) : Except ChainErr (List Nat) :=
  if _h : ∀ j ∈ List.range nCols,
      ((s.descriptor.GetClusterDescriptor (wrapSub1 s.descriptor.GetNClusters)).bind
        (fun cd => cd.GetColumnRange j)).isSome then
    Except.ok ((List.range nCols).map (fun j =>
      match (s.descriptor.GetClusterDescriptor (wrapSub1 s.descriptor.GetNClusters)).bind
          (fun cd => cd.GetColumnRange j) with
      | some r => r.fFirstElementIndex + r.fNElements
      | none => 0))
  else Except.error ChainErr.atOutOfRange

/-- The rows of fNElementsPerColumnPerSource (lines 127-134): row 0 is given,
row (i+1) adds source i's contribution componentwise. -/
def buildRows (nCols : Nat) : List Nat → List RPageSource → Except ChainErr (List (List Nat))
  | row, [] => Except.ok [row]
  | row, s :: rest =>
    match sourceColContrib nCols s with
    | Except.error e => Except.error e
    | Except.ok contrib =>
      match buildRows nCols (List.zipWith (· + ·) row contrib) rest with
      | Except.error e => Except.error e
      | Except.ok tail => Except.ok (row :: tail)

/-- RPageSourceChain::InitializeVariables (lines 106-135): builds
fNEntryPerSource, fNClusterPerSource and fNElementsPerColumnPerSource.  The
column count is read from source 0 (fSources.at(0), line 119), which raises the
out-of-range error on an empty source list. -/
def InitializeVariables (sources : List RPageSource) :
    Except ChainErr (List Nat × List Nat × List (List Nat)) :=
  let entryTable := prefixSums (sources.map (fun s => s.nEntries))
  let clusterTable := prefixSums (sources.map (fun s => s.descriptor.GetNClusters))
  match sources[0]? with
  | none => Except.error ChainErr.atOutOfRange
  | some s0 =>
    let nCols := s0.descriptor.GetNColumns
    match buildRows nCols (List.replicate nCols 0) sources with
    | Except.error e => Except.error e
    | Except.ok rows => Except.ok (entryTable, clusterTable, rows)

/-- The chain state: name, options, registered sources, the three translation
tables, the degraded-mode flag (fUnsafe in the source), the page-to-source
tracker and the merged descriptor installed by Attach. -/
structure RPageSourceChain where
  fNTupleName : String
  fOptions : RNTupleReadOptions
  fSources : List RPageSource
  fNEntryPerSource : List Nat
  fNClusterPerSource : List Nat
  fNElementsPerColumnPerSource : List (List Nat)
  fDegraded : Bool
  fPageMapper : PageMapper
  fDescriptor : RNTupleDescriptor

/-- The constructor taking already-owned sources (lines 59-66): no emptiness
check is performed; CompareFileMetaData and InitializeVariables run directly.
The merged descriptor starts empty (it is installed by Attach). -/
def mkChainOwned (ntupleName : String) (sources : List RPageSource)
    (options : RNTupleReadOptions) : Except ChainErr RPageSourceChain :=
  match InitializeVariables sources with
  | Except.error e => Except.error e
  | Except.ok tables =>
    Except.ok
      { fNTupleName := ntupleName,
        fOptions := options,
        fSources := sources,
        fNEntryPerSource := tables.1,
        fNClusterPerSource := tables.2.1,
        fNElementsPerColumnPerSource := tables.2.2,
        fDegraded := (CompareFileMetaData sources).1,
        fPageMapper := PageMapper.empty,
        fDescriptor := emptyDescriptor }

/-- The constructor taking non-owning source handles (lines 45-57): every
handed-in source is duplicated through RPageSource::Clone and attached, then
the chain is built over the duplicates exactly as in the owning constructor. -/
def mkChainFromRefs (ntupleName : String) (sources : List RPageSource)
    (options : RNTupleReadOptions) : Except ChainErr RPageSourceChain :=
  mkChainOwned ntupleName (sources.map RPageSource.CloneSrc) options

/-- RPageSourceChain::Clone (lines 147-154): collects raw pointers to the
chain's own sources and rebuilds a chain through the handle constructor,
with the same ntuple name and options. -/
def RPageSourceChain.Clone (ch : RPageSourceChain) : Except ChainErr RPageSourceChain :=
  mkChainFromRefs ch.fNTupleName ch.fSources ch.fOptions

/-- Attach installs the merged descriptor (DoAttach, lines 137-145, merges
through external builder primitives; the merged descriptor is therefore taken
as a parameter). -/
def RPageSourceChain.Attach (ch : RPageSourceChain) (d : RNTupleDescriptor) :
    RPageSourceChain :=
  { ch with fDescriptor := d }

/-- The owner scan of both PopulatePage overloads (lines 159-163 and 183-187):
starting at index i with fuel iterations left, the first index whose successor
table entry strictly exceeds the requested coordinate. -/
def firstOwner (table : List Nat) (g : Nat) : Nat → Nat → Option Nat
  | _, 0 => none
  | i, fuel + 1 =>
    match table[i + 1]? with
    | some b => if g < b then some i else firstOwner table g (i + 1) fuel
    | none => none

/-- The outcome of a dispatch by global entry index: the re-windowed page, the
page as delegated back by the owning source (still in local coordinates), the
chosen source index, the local index passed down, and the chain state with the
tracker updated. -/
structure PopGlobalResult where
  page : RPage
  delegated : RPage
  sourceIndex : Nat
  localIndex : Nat
  chainAfter : RPageSourceChain

/-- RPageSourceChain::PopulatePage by global entry index (lines 156-176):
scan fNEntryPerSource for the owning source, fail the assertion when the scan
runs off the end, delegate with the local index, record the buffer identity,
then re-window by the per-column element base and the cluster attribution
looked up in the merged descriptor. -/
def RPageSourceChain.PopulatePageGlobal (ch : RPageSourceChain)
    (columnId globalIndex : Nat) : Except ChainErr PopGlobalResult :=
  match firstOwner ch.fNEntryPerSource globalIndex 0 ch.fSources.length with
  | none => Except.error ChainErr.indexOutOfRange
  | some sourceIndex =>
    match ch.fSources[sourceIndex]?, ch.fNEntryPerSource[sourceIndex]? with
    | some src, some base =>
      let localIndex := globalIndex - base
      let page0 := src.popPageGlobal columnId localIndex
      let mapper := ch.fPageMapper.emplace page0.fBuffer sourceIndex
      let clusterId := ch.fDescriptor.findClusterId columnId globalIndex
      match ch.fDescriptor.GetClusterDescriptor clusterId with
      | none => Except.error ChainErr.atOutOfRange
      | some cdesc =>
        match cdesc.GetColumnRange columnId with
        | none => Except.error ChainErr.atOutOfRange
        | some range =>
          match ch.fNElementsPerColumnPerSource[sourceIndex]? with
          | none => Except.error ChainErr.atOutOfRange
          | some row =>
            match row[columnId]? with
            | none => Except.error ChainErr.atOutOfRange
            | some colBase =>
              Except.ok
                { page := page0.SetWindow (page0.fGlobalRangeFirst + colBase)
                    { fId := clusterId, fIndexOffset := range.fFirstElementIndex },
                  delegated := page0,
                  sourceIndex := sourceIndex,
                  localIndex := localIndex,
                  chainAfter := { ch with fPageMapper := mapper } }
    | _, _ => Except.error ChainErr.atOutOfRange

/-- The outcome of a dispatch by cluster-relative index. -/
structure PopClusterResult where
  page : RPage
  delegated : RPage
  sourceIndex : Nat
  localClusterId : Nat
  localEntryIndex : Nat
  chainAfter : RPageSourceChain

/-- RPageSourceChain::PopulatePage by cluster-relative index (lines 178-201):
scan fNClusterPerSource for the owning source, fail the assertion when the scan
runs off the end, delegate with the source-local cluster id and the unchanged
cluster-local entry index, record the buffer identity, then re-window using the
original global cluster id for attribution. -/
def RPageSourceChain.PopulatePageCluster (ch : RPageSourceChain)
    (columnId clusterId localEntryIndex : Nat) : Except ChainErr PopClusterResult :=
  match firstOwner ch.fNClusterPerSource clusterId 0 ch.fSources.length with
  | none => Except.error ChainErr.indexOutOfRange
  | some sourceIndex =>
    match ch.fSources[sourceIndex]?, ch.fNClusterPerSource[sourceIndex]? with
    | some src, some base =>
      let localClusterId := clusterId - base
      let page0 := src.popPageCluster columnId localClusterId localEntryIndex
      let mapper := ch.fPageMapper.emplace page0.fBuffer sourceIndex
      match ch.fDescriptor.GetClusterDescriptor clusterId with
      | none => Except.error ChainErr.atOutOfRange
      | some cdesc =>
        match cdesc.GetColumnRange columnId with
        | none => Except.error ChainErr.atOutOfRange
        | some range =>
          match ch.fNElementsPerColumnPerSource[sourceIndex]? with
          | none => Except.error ChainErr.atOutOfRange
          | some row =>
            match row[columnId]? with
            | none => Except.error ChainErr.atOutOfRange
            | some colBase =>
              Except.ok
                { page := page0.SetWindow (page0.fGlobalRangeFirst + colBase)
                    { fId := clusterId, fIndexOffset := range.fFirstElementIndex },
                  delegated := page0,
                  sourceIndex := sourceIndex,
                  localClusterId := localClusterId,
                  localEntryIndex := localEntryIndex,
                  chainAfter := { ch with fPageMapper := mapper } }
    | _, _ => Except.error ChainErr.atOutOfRange

/-- The observable outcome of ReleasePage. -/
inductive ReleaseAction where
  | noop
  | released (sourceIndex : Nat)
  | fatalViolation
deriving DecidableEq

/-- RPageSourceChain::ReleasePage (lines 203-217): a null page is a no-op;
otherwise the buffer identity is looked up in the tracker, the release is
forwarded to the recorded source and the tracker entry erased; an untracked
buffer fails the final assertion. -/
def RPageSourceChain.ReleasePage (ch : RPageSourceChain) (page : RPage) :
    ReleaseAction × RPageSourceChain :=
  if page.IsNull then (ReleaseAction.noop, ch)
  else
    match ch.fPageMapper page.fBuffer with
    | some i =>
      (ReleaseAction.released i,
        { ch with fPageMapper := ch.fPageMapper.eraseKey page.fBuffer })
    | none => (ReleaseAction.fatalViolation, ch)

/-! ### Concrete test fixture

The concrete scenario of the specification: source A with 100 entries in two
clusters, source B with 50 entries in one cluster, one column.  Expected
tables: entryBase = [0, 100, 150], clusterBase = [0, 2, 3], per-column element
bases [[0], [100], [150]]. -/

def optsT : RNTupleReadOptions := { val := 0 }

def fdT : RFieldDescriptor := { content := 10 }

def cdT : RColumnDescriptor := { content := 20 }

def clusterA0 : RClusterDescriptor := { columnRanges := [{ fFirstElementIndex := 0, fNElements := 60 }] }

def clusterA1 : RClusterDescriptor := { columnRanges := [{ fFirstElementIndex := 60, fNElements := 40 }] }

def clusterB0 : RClusterDescriptor := { columnRanges := [{ fFirstElementIndex := 0, fNElements := 50 }] }

def descrA : RNTupleDescriptor :=
  { fieldDescriptors := [fdT], columnDescriptors := [cdT],
    clusterDescriptors := [clusterA0, clusterA1], findClusterId := fun _ _ => 0 }

def descrB : RNTupleDescriptor :=
  { fieldDescriptors := [fdT], columnDescriptors := [cdT],
    clusterDescriptors := [clusterB0], findClusterId := fun _ _ => 0 }

def srcA : RPageSource :=
  { cloneDepth := 0, nEntries := 100, descriptor := descrA,
    popPageGlobal := fun _ idx => { fBuffer := 11, fGlobalRangeFirst := idx, fClusterInfo := { fId := 0, fIndexOffset := 0 } },
    popPageCluster := fun _ _ idx => { fBuffer := 12, fGlobalRangeFirst := idx, fClusterInfo := { fId := 0, fIndexOffset := 0 } } }

def srcB : RPageSource :=
  { cloneDepth := 0, nEntries := 50, descriptor := descrB,
    popPageGlobal := fun _ idx => { fBuffer := 13, fGlobalRangeFirst := idx, fClusterInfo := { fId := 0, fIndexOffset := 0 } },
    popPageCluster := fun _ _ idx => { fBuffer := 14, fGlobalRangeFirst := idx, fClusterInfo := { fId := 0, fIndexOffset := 0 } } }

/-- A source with zero clusters, for the wrap-around hazard of line 129. -/
def srcZ : RPageSource :=
  { cloneDepth := 0, nEntries := 5, descriptor :=
      { fieldDescriptors := [fdT], columnDescriptors := [cdT],
        clusterDescriptors := [], findClusterId := fun _ _ => 0 },
    popPageGlobal := fun _ idx => { fBuffer := 15, fGlobalRangeFirst := idx, fClusterInfo := { fId := 0, fIndexOffset := 0 } },
    popPageCluster := fun _ _ idx => { fBuffer := 16, fGlobalRangeFirst := idx, fClusterInfo := { fId := 0, fIndexOffset := 0 } } }

/-- Source B's one cluster re-based to the global numbering. -/
def clusterG2 : RClusterDescriptor := { columnRanges := [{ fFirstElementIndex := 100, fNElements := 50 }] }

/-- The merged descriptor after Attach: the three clusters in global numbering
and the cluster-ownership lookup over the 150 global entries. -/
def mergedT : RNTupleDescriptor :=
  { fieldDescriptors := [fdT], columnDescriptors := [cdT],
    clusterDescriptors := [clusterA0, clusterA1, clusterG2],
    findClusterId := fun _ g => if g < 60 then 0 else if g < 100 then 1 else 2 }

def junkChain : RPageSourceChain :=
  { fNTupleName := "", fOptions := optsT, fSources := [], fNEntryPerSource := [],
    fNClusterPerSource := [], fNElementsPerColumnPerSource := [],
    fDegraded := false, fPageMapper := PageMapper.empty, fDescriptor := emptyDescriptor }

/-- The fixture chain as constructed (before Attach). -/
def chainT0 : RPageSourceChain :=
  match mkChainOwned "ntpl" [srcA, srcB] optsT with
  | Except.ok c => c
  | Except.error _ => junkChain

/-- The fixture chain with the merged descriptor attached. -/
def chainT : RPageSourceChain := chainT0.Attach mergedT

/-- The clone of the fixture chain. -/
def chainT0clone : RPageSourceChain :=
  match chainT0.Clone with
  | Except.ok c => c
  | Except.error _ => junkChain

def junkPage : RPage := { fBuffer := 0, fGlobalRangeFirst := 0, fClusterInfo := { fId := 0, fIndexOffset := 0 } }

/-- The result of the fixture dispatch at global entry 120 of column 0. -/
def rT120 : PopGlobalResult :=
  match chainT.PopulatePageGlobal 0 120 with
  | Except.ok r => r
  | Except.error _ =>
    { page := junkPage, delegated := junkPage, sourceIndex := 0, localIndex := 0,
      chainAfter := junkChain }

/-- The result of the fixture dispatch at global cluster 2, local entry 7, column 0. -/
def rC2 : PopClusterResult :=
  match chainT.PopulatePageCluster 0 2 7 with
  | Except.ok r => r
  | Except.error _ =>
    { page := junkPage, delegated := junkPage, sourceIndex := 0, localClusterId := 0,
      localEntryIndex := 0, chainAfter := junkChain }

/-- A source shaped like source B but whose only field descriptor differs from
source A's, for exercising the compatibility check. -/
def srcD : RPageSource :=
  { cloneDepth := 0, nEntries := 50, descriptor :=
      { fieldDescriptors := [{ content := 99 }], columnDescriptors := [cdT],
        clusterDescriptors := [clusterB0], findClusterId := fun _ _ => 0 },
    popPageGlobal := fun _ idx => { fBuffer := 17, fGlobalRangeFirst := idx, fClusterInfo := { fId := 0, fIndexOffset := 0 } },
    popPageCluster := fun _ _ idx => { fBuffer := 18, fGlobalRangeFirst := idx, fClusterInfo := { fId := 0, fIndexOffset := 0 } } }

/-! ### Helper lemmas -/

theorem prefixSums_length : ∀ l : List Nat, (prefixSums l).length = l.length + 1
  | [] => rfl
  | c :: cs => by simp [prefixSums, prefixSums_length cs]

theorem prefixSums_getElem? : ∀ (l : List Nat) (i : Nat), i ≤ l.length →
    (prefixSums l)[i]? = some ((l.take i).sum)
  | [], 0, _ => rfl
  | _ :: _, 0, _ => by simp [prefixSums]
  | c :: cs, i + 1, h => by
    have ih := prefixSums_getElem? cs i (Nat.le_of_succ_le_succ h)
    simp [prefixSums, ih]

theorem take_sum_mono (l : List Nat) {j k : Nat} (h : j ≤ k) :
    (l.take j).sum ≤ (l.take k).sum := by
  have hk : k = j + (k - j) := by omega
  rw [hk, List.take_add, List.sum_append]
  exact Nat.le_add_right _ _

theorem prefixSums_getElem?_inv (l : List Nat) (i : Nat) (b : Nat)
    (h : (prefixSums l)[i]? = some b) : i ≤ l.length ∧ b = (l.take i).sum := by
  have hlen : i < (prefixSums l).length := by
    by_contra hge
    rw [List.getElem?_eq_none (by omega)] at h
    exact Option.noConfusion h
  rw [prefixSums_length] at hlen
  have hle : i ≤ l.length := by omega
  rw [prefixSums_getElem? l i hle] at h
  exact ⟨hle, (Option.some.injEq _ _ ▸ h).symm⟩

theorem firstHit_eq_some (p : Nat → Bool) :
    ∀ (fuel j0 j : Nat), j0 ≤ j → j < j0 + fuel → p j = true →
      (∀ k, j0 ≤ k → k < j → p k = false) → firstHit p j0 fuel = some j
  | 0, _, _, h1, h2, _, _ => absurd h2 (by omega)
  | fuel + 1, j0, j, h1, h2, hp, hmin => by
    by_cases h : j0 = j
    · subst h
      unfold firstHit
      simp [hp]
    · have h0 : p j0 = false := hmin j0 (Nat.le_refl _) (by omega)
      unfold firstHit
      rw [if_neg (by simp [h0])]
      exact firstHit_eq_some p fuel (j0 + 1) j (by omega) (by omega) hp
        (fun k hk1 hk2 => hmin k (by omega) hk2)

theorem firstHit_eq_none (p : Nat → Bool) :
    ∀ (fuel j0 : Nat), (∀ k, j0 ≤ k → k < j0 + fuel → p k = false) →
      firstHit p j0 fuel = none
  | 0, _, _ => rfl
  | fuel + 1, j0, h => by
    have h0 : p j0 = false := h j0 (Nat.le_refl _) (by omega)
    unfold firstHit
    rw [if_neg (by simp [h0])]
    exact firstHit_eq_none p fuel (j0 + 1) (fun k hk1 hk2 => h k (by omega) (by omega))

theorem firstOwner_eq_some (table : List Nat) (g : Nat) :
    ∀ (fuel i j : Nat), i ≤ j → j < i + fuel →
      (∀ k, i ≤ k → k < j → ∃ b, table[k + 1]? = some b ∧ b ≤ g) →
      (∃ b, table[j + 1]? = some b ∧ g < b) →
      firstOwner table g i fuel = some j
  | 0, _, _, h1, h2, _, _ => absurd h2 (by omega)
  | fuel + 1, i, j, h1, h2, hmin, hj => by
    by_cases h : i = j
    · subst h
      obtain ⟨b, hb, hgb⟩ := hj
      unfold firstOwner
      rw [hb]
      simp [hgb]
    · obtain ⟨b, hb, hbg⟩ := hmin i (Nat.le_refl _) (by omega)
      unfold firstOwner
      rw [hb]
      show (if g < b then some i else firstOwner table g (i + 1) fuel) = some j
      rw [if_neg (by omega)]
      exact firstOwner_eq_some table g fuel (i + 1) j (by omega) (by omega)
        (fun k hk1 hk2 => hmin k (by omega) hk2) hj

theorem firstOwner_eq_none (table : List Nat) (g : Nat) :
    ∀ (fuel i : Nat),
      (∀ k, i ≤ k → k < i + fuel → ∃ b, table[k + 1]? = some b ∧ b ≤ g) →
      firstOwner table g i fuel = none
  | 0, _, _ => rfl
  | fuel + 1, i, h => by
    obtain ⟨b, hb, hbg⟩ := h i (Nat.le_refl _) (by omega)
    unfold firstOwner
    rw [hb]
    show (if g < b then some i else firstOwner table g (i + 1) fuel) = none
    rw [if_neg (by omega)]
    exact firstOwner_eq_none table g fuel (i + 1)
      (fun k hk1 hk2 => h k (by omega) (by omega))

theorem zipWith_add_getElem? : ∀ (l1 l2 : List Nat) (j a b : Nat),
    l1[j]? = some a → l2[j]? = some b →
    (List.zipWith (· + ·) l1 l2)[j]? = some (a + b)
  | x :: l1, y :: l2, 0, a, b, ha, hb => by
    simp only [List.getElem?_cons_zero, Option.some.injEq] at ha hb
    simp [ha, hb]
  | x :: l1, y :: l2, j + 1, a, b, ha, hb => by
    simp only [List.getElem?_cons_succ] at ha hb
    simpa using zipWith_add_getElem? l1 l2 j a b ha hb
  | [], _, _, _, _, ha, _ => by simp at ha
  | _ :: _, [], j, _, _, _, hb => by simp at hb

theorem wrapSub1_eq {n : Nat} (h1 : 1 ≤ n) (h2 : n < 2 ^ 64) : wrapSub1 n = n - 1 := by
  unfold wrapSub1
  have h3 : n + (2 ^ 64 - 1) = (n - 1) + 1 * 2 ^ 64 := by omega
  rw [h3, Nat.add_mul_mod_self_right, Nat.mod_eq_of_lt (by omega)]

theorem sourceColContrib_ok (nCols : Nat) (s : RPageSource) (contrib : List Nat)
    (h : sourceColContrib nCols s = Except.ok contrib) :
    contrib.length = nCols ∧
    ∀ j, j < nCols → ∃ cd r,
      s.descriptor.GetClusterDescriptor (wrapSub1 s.descriptor.GetNClusters) = some cd ∧
      cd.GetColumnRange j = some r ∧
      contrib[j]? = some (r.fFirstElementIndex + r.fNElements) := by
  unfold sourceColContrib at h
  split at h
  case isFalse => exact Except.noConfusion h
  case isTrue hall =>
    have hc : contrib = (List.range nCols).map (fun j =>
        match (s.descriptor.GetClusterDescriptor (wrapSub1 s.descriptor.GetNClusters)).bind
            (fun cd => cd.GetColumnRange j) with
        | some r => r.fFirstElementIndex + r.fNElements
        | none => 0) := by
      cases h
      rfl
    subst hc
    refine ⟨by simp, fun j hj => ?_⟩
    have hmem := hall j (List.mem_range.mpr hj)
    rw [Option.isSome_iff_exists] at hmem
    obtain ⟨r, hr⟩ := hmem
    rw [Option.bind_eq_some] at hr
    obtain ⟨cd, hcd, hrange⟩ := hr
    refine ⟨cd, r, hcd, hrange, ?_⟩
    rw [List.getElem?_map]
    rw [List.getElem?_range hj]
    simp only [Option.map_some']
    rw [Option.bind_eq_some.mpr ⟨cd, hcd, hrange⟩]

theorem sourceColContrib_err_kind (nCols : Nat) (s : RPageSource) (e : ChainErr)
    (h : sourceColContrib nCols s = Except.error e) : e = ChainErr.atOutOfRange := by
  unfold sourceColContrib at h
  split at h
  case isTrue => exact Except.noConfusion h
  case isFalse =>
    cases h
    rfl

theorem sourceColContrib_err_of_noCluster (nCols : Nat) (s : RPageSource)
    (hn : 0 < nCols)
    (hcd : s.descriptor.GetClusterDescriptor (wrapSub1 s.descriptor.GetNClusters) = none) :
    sourceColContrib nCols s = Except.error ChainErr.atOutOfRange := by
  unfold sourceColContrib
  rw [dif_neg]
  intro hall
  have h0 := hall 0 (List.mem_range.mpr hn)
  rw [hcd] at h0
  simp at h0
theorem buildRows_spec (nCols : Nat) :
    ∀ (srcs : List RPageSource) (row : List Nat) (rows : List (List Nat)),
      buildRows nCols row srcs = Except.ok rows →
      rows.length = srcs.length + 1 ∧
      rows[0]? = some row ∧
      (row.length = nCols → ∀ r ∈ rows, r.length = nCols) ∧
      (∀ (i : Nat) (s : RPageSource), srcs[i]? = some s →
        ∃ prev contrib, rows[i]? = some prev ∧
          sourceColContrib nCols s = Except.ok contrib ∧
          rows[i + 1]? = some (List.zipWith (· + ·) prev contrib))
  | [], row, rows, h => by
    unfold buildRows at h
    have hr : rows = [row] := by
      cases h
      rfl
    subst hr
    refine ⟨rfl, rfl, ?_, ?_⟩
    · intro hlen r hr
      rw [List.mem_singleton] at hr
      subst hr
      exact hlen
    · intro i s hs
      rw [List.getElem?_nil] at hs
      exact Option.noConfusion hs
  | s :: rest, row, rows, h => by
    unfold buildRows at h
    cases hcontrib : sourceColContrib nCols s with
    | error e =>
      simp only [hcontrib] at h
      exact Except.noConfusion h
    | ok contrib =>
      cases htail : buildRows nCols (List.zipWith (· + ·) row contrib) rest with
      | error e =>
        simp only [hcontrib, htail] at h
        exact Except.noConfusion h
      | ok tail =>
        simp only [hcontrib, htail, Except.ok.injEq] at h
        subst h
        obtain ⟨ihlen, ihzero, ihall, ihstep⟩ := buildRows_spec nCols rest _ tail htail
        refine ⟨by simp [ihlen], by simp, ?_, ?_⟩
        · intro hlen r hr
          rw [List.mem_cons] at hr
          rcases hr with h1 | h1
          · subst h1
            exact hlen
          · refine ihall ?_ r h1
            rw [List.length_zipWith, hlen, (sourceColContrib_ok nCols s contrib hcontrib).1]
            omega
        · intro i sI hsI
          cases i with
          | zero =>
            rw [List.getElem?_cons_zero, Option.some.injEq] at hsI
            subst hsI
            exact ⟨row, contrib, by simp, hcontrib, by simpa using ihzero⟩
          | succ i =>
            rw [List.getElem?_cons_succ] at hsI
            obtain ⟨prev, contrib2, hprev, hc2, hstep⟩ := ihstep i sI hsI
            exact ⟨prev, contrib2, by simpa using hprev, hc2, by simpa using hstep⟩

theorem buildRows_err (nCols : Nat) :
    ∀ (srcs : List RPageSource) (row : List Nat),
      (∃ (i : Nat) (s : RPageSource), srcs[i]? = some s ∧
        sourceColContrib nCols s = Except.error ChainErr.atOutOfRange) →
      buildRows nCols row srcs = Except.error ChainErr.atOutOfRange
  | [], row, hex => by
    obtain ⟨i, s, hs, _⟩ := hex
    rw [List.getElem?_nil] at hs
    exact Option.noConfusion hs
  | s0 :: rest, row, hex => by
    unfold buildRows
    cases hcontrib : sourceColContrib nCols s0 with
    | error e =>
      rw [sourceColContrib_err_kind nCols s0 e hcontrib]
    | ok contrib =>
      obtain ⟨i, s, hs, herr⟩ := hex
      cases i with
      | zero =>
        rw [List.getElem?_cons_zero, Option.some.injEq] at hs
        subst hs
        rw [hcontrib] at herr
        exact Except.noConfusion herr
      | succ i =>
        rw [List.getElem?_cons_succ] at hs
        show (match buildRows nCols (List.zipWith (· + ·) row contrib) rest with
          | Except.error e => Except.error e
          | Except.ok tail => Except.ok (row :: tail)) = Except.error ChainErr.atOutOfRange
        rw [buildRows_err nCols rest (List.zipWith (· + ·) row contrib) ⟨i, s, hs, herr⟩]

theorem InitializeVariables_ok (sources : List RPageSource)
    (eb cb : List Nat) (rows : List (List Nat))
    (h : InitializeVariables sources = Except.ok (eb, cb, rows)) :
    eb = prefixSums (sources.map (fun s => s.nEntries)) ∧
    cb = prefixSums (sources.map (fun s => s.descriptor.GetNClusters)) ∧
    ∃ s0, sources[0]? = some s0 ∧
      buildRows s0.descriptor.GetNColumns
        (List.replicate s0.descriptor.GetNColumns 0) sources = Except.ok rows := by
  unfold InitializeVariables at h
  cases h0 : sources[0]? with
  | none =>
    simp only [h0] at h
    exact Except.noConfusion h
  | some s0 =>
    simp only [h0] at h
    cases hbr : buildRows s0.descriptor.GetNColumns
        (List.replicate s0.descriptor.GetNColumns 0) sources with
    | error e =>
      simp only [hbr] at h
      exact Except.noConfusion h
    | ok rows2 =>
      simp only [hbr, Except.ok.injEq, Prod.mk.injEq] at h
      obtain ⟨h1, h2, h3⟩ := h
      exact ⟨h1.symm, h2.symm, s0, rfl, by rw [hbr, h3]⟩

theorem mkChainOwned_ok (ntupleName : String) (sources : List RPageSource)
    (options : RNTupleReadOptions) (ch : RPageSourceChain)
    (h : mkChainOwned ntupleName sources options = Except.ok ch) :
    ch.fNTupleName = ntupleName ∧ ch.fOptions = options ∧ ch.fSources = sources ∧
    InitializeVariables sources =
      Except.ok (ch.fNEntryPerSource, ch.fNClusterPerSource,
        ch.fNElementsPerColumnPerSource) ∧
    ch.fDegraded = (CompareFileMetaData sources).1 ∧
    ch.fPageMapper = PageMapper.empty ∧
    ch.fDescriptor = emptyDescriptor := by
  unfold mkChainOwned at h
  cases hiv : InitializeVariables sources with
  | error e =>
    simp only [hiv] at h
    exact Except.noConfusion h
  | ok tables =>
    simp only [hiv, Except.ok.injEq] at h
    subst h
    exact ⟨rfl, rfl, rfl, rfl, rfl, rfl, rfl⟩


theorem getElem?_some_lt {α : Type} {l : List α} {i : Nat} {a : α}
    (h : l[i]? = some a) : i < l.length := by
  by_contra hge
  rw [List.getElem?_eq_none (by omega)] at h
  exact Option.noConfusion h

theorem take_sum_succ (l : List Nat) (i x : Nat) (h : l[i]? = some x) :
    (l.take (i + 1)).sum = (l.take i).sum + x := by
  rw [List.take_succ, List.sum_append, h]
  simp

/-- The recurrence of a prefix-sum table, in the form used by the claims. -/
theorem prefixSums_step (l : List Nat) (i x b : Nat) (hx : l[i]? = some x)
    (hb : (prefixSums l)[i]? = some b) :
    (prefixSums l)[i + 1]? = some (b + x) := by
  obtain ⟨hle, hbval⟩ := prefixSums_getElem?_inv l i b hb
  have hlt : i < l.length := getElem?_some_lt hx
  rw [prefixSums_getElem? l (i + 1) (by omega), take_sum_succ l i x hx, hbval]

/-! ### Claim theorems -/

/-- Claim C2: at construction the chain builds three prefix-sum tables, each of
length nSources + 1 with table[0] = 0: entryBase[i+1] = entryBase[i] + source
i's entry count, clusterBase[i+1] = clusterBase[i] + source i's cluster count,
and, for every column c of source 0's schema, columnElementBase[i+1][c] =
columnElementBase[i][c] + (firstElementIndex + elementCount) of column c's
range in source i's highest-indexed cluster. -/
theorem claim_C2_translation_tables (ntupleName : String) (sources : List RPageSource)
    (options : RNTupleReadOptions) (ch : RPageSourceChain)
    (hc : mkChainOwned ntupleName sources options = Except.ok ch)
    (hw : ∀ s ∈ sources, s.descriptor.GetNClusters < 2 ^ 64) :
    (ch.fNEntryPerSource.length = sources.length + 1 ∧
     ch.fNEntryPerSource[0]? = some 0 ∧
     ∀ (i : Nat) (s : RPageSource) (b : Nat), sources[i]? = some s →
       ch.fNEntryPerSource[i]? = some b →
       ch.fNEntryPerSource[i + 1]? = some (b + s.nEntries)) ∧
    (ch.fNClusterPerSource.length = sources.length + 1 ∧
     ch.fNClusterPerSource[0]? = some 0 ∧
     ∀ (i : Nat) (s : RPageSource) (b : Nat), sources[i]? = some s →
       ch.fNClusterPerSource[i]? = some b →
       ch.fNClusterPerSource[i + 1]? = some (b + s.descriptor.GetNClusters)) ∧
    (ch.fNElementsPerColumnPerSource.length = sources.length + 1 ∧
     (∀ s0, sources[0]? = some s0 →
       ch.fNElementsPerColumnPerSource[0]? =
         some (List.replicate s0.descriptor.GetNColumns 0)) ∧
     (∀ (i : Nat) (s s0 : RPageSource) (row : List Nat),
       sources[0]? = some s0 → sources[i]? = some s →
       ch.fNElementsPerColumnPerSource[i]? = some row →
       ∃ rowNext, ch.fNElementsPerColumnPerSource[i + 1]? = some rowNext ∧
         ∀ j, j < s0.descriptor.GetNColumns →
           ∃ cd r bj,
             s.descriptor.GetClusterDescriptor (s.descriptor.GetNClusters - 1) = some cd ∧
             cd.GetColumnRange j = some r ∧
             row[j]? = some bj ∧
             rowNext[j]? = some (bj + (r.fFirstElementIndex + r.fNElements)))) := by
  obtain ⟨-, -, -, hiv, -, -, -⟩ := mkChainOwned_ok ntupleName sources options ch hc
  obtain ⟨heb, hcb, s0, hs0, hbr⟩ :=
    InitializeVariables_ok sources ch.fNEntryPerSource ch.fNClusterPerSource
      ch.fNElementsPerColumnPerSource hiv
  obtain ⟨hlen, hzero, hall, hstep⟩ :=
    buildRows_spec s0.descriptor.GetNColumns sources
      (List.replicate s0.descriptor.GetNColumns 0) ch.fNElementsPerColumnPerSource hbr
  refine ⟨⟨?_, ?_, ?_⟩, ⟨?_, ?_, ?_⟩, ?_, ?_, ?_⟩
  · rw [heb, prefixSums_length, List.length_map]
  · rw [heb, prefixSums_getElem? _ 0 (Nat.zero_le _)]
    simp
  · intro i s b hi hb
    rw [heb] at hb ⊢
    exact prefixSums_step _ i s.nEntries b (by rw [List.getElem?_map, hi]; rfl) hb
  · rw [hcb, prefixSums_length, List.length_map]
  · rw [hcb, prefixSums_getElem? _ 0 (Nat.zero_le _)]
    simp
  · intro i s b hi hb
    rw [hcb] at hb ⊢
    exact prefixSums_step _ i s.descriptor.GetNClusters b
      (by rw [List.getElem?_map, hi]; rfl) hb
  · exact hlen
  · intro s0x hs0x
    rw [hs0x, Option.some.injEq] at hs0
    rw [hs0]
    exact hzero
  · intro i s s0x row hs0x hi hrow
    rw [hs0x, Option.some.injEq] at hs0
    subst hs0
    obtain ⟨prev, contrib, hprev, hcontrib, hnext⟩ := hstep i s hi
    rw [hrow, Option.some.injEq] at hprev
    subst hprev
    refine ⟨List.zipWith (· + ·) row contrib, hnext, ?_⟩
    intro j hj
    obtain ⟨clen, cfacts⟩ := sourceColContrib_ok s0x.descriptor.GetNColumns s contrib hcontrib
    obtain ⟨cd, r, hcd, hrange, hcj⟩ := cfacts j hj
    have hn1 : 1 ≤ s.descriptor.GetNClusters := by
      have hltc := getElem?_some_lt hcd
      unfold RNTupleDescriptor.GetNClusters
      omega
    have hnw : s.descriptor.GetNClusters < 2 ^ 64 :=
      hw s (List.getElem?_mem hi)
    rw [wrapSub1_eq hn1 hnw] at hcd
    have hrlen : row.length = s0x.descriptor.GetNColumns := by
      refine hall (by simp) row ?_
      exact List.getElem?_mem hrow
    have hbj : row[j]? = some (row.get ⟨j, by omega⟩) := by
      rw [List.getElem?_eq_getElem (by omega)]
      rfl
    exact ⟨cd, r, row.get ⟨j, by omega⟩, hcd, hrange, hbj,
      zipWith_add_getElem? row contrib j _ _ hbj hcj⟩

/-- Claim C2 witness: the tables of the fixture chain obey the recurrences. -/
theorem claim_C2_translation_tables_witness :
    chainT0.fNEntryPerSource[0]? = some 0 ∧
    chainT0.fNEntryPerSource[1]? = some (0 + srcA.nEntries) ∧
    chainT0.fNClusterPerSource[1]? = some (0 + srcA.descriptor.GetNClusters) := by
  have h := claim_C2_translation_tables "ntpl" [srcA, srcB] optsT chainT0 rfl (by decide)
  exact ⟨h.1.2.1, h.1.2.2 0 srcA 0 rfl h.1.2.1, h.2.1.2.2 0 srcA 0 rfl h.2.1.2.1⟩

/-- Inversion of a successful dispatch by global entry index: every component
of the result is determined by the scan, the delegation, and the lookups. -/
theorem PopulatePageGlobal_ok (ch : RPageSourceChain) (columnId g : Nat)
    (r : PopGlobalResult) (h : ch.PopulatePageGlobal columnId g = Except.ok r) :
    ∃ i src base cdesc range row colBase,
      firstOwner ch.fNEntryPerSource g 0 ch.fSources.length = some i ∧
      ch.fSources[i]? = some src ∧
      ch.fNEntryPerSource[i]? = some base ∧
      ch.fDescriptor.GetClusterDescriptor (ch.fDescriptor.findClusterId columnId g) =
        some cdesc ∧
      cdesc.GetColumnRange columnId = some range ∧
      ch.fNElementsPerColumnPerSource[i]? = some row ∧
      row[columnId]? = some colBase ∧
      r = { page := (src.popPageGlobal columnId (g - base)).SetWindow
              ((src.popPageGlobal columnId (g - base)).fGlobalRangeFirst + colBase)
              { fId := ch.fDescriptor.findClusterId columnId g,
                fIndexOffset := range.fFirstElementIndex },
            delegated := src.popPageGlobal columnId (g - base),
            sourceIndex := i,
            localIndex := g - base,
            chainAfter := { ch with fPageMapper :=
              ch.fPageMapper.emplace (src.popPageGlobal columnId (g - base)).fBuffer i } } := by
  unfold RPageSourceChain.PopulatePageGlobal at h
  cases hfo : firstOwner ch.fNEntryPerSource g 0 ch.fSources.length with
  | none =>
    simp only [hfo] at h
    exact Except.noConfusion h
  | some i =>
    simp only [hfo] at h
    cases hsrc : ch.fSources[i]? with
    | none =>
      simp only [hsrc] at h
      exact Except.noConfusion h
    | some src =>
      cases hbase : ch.fNEntryPerSource[i]? with
      | none =>
        simp only [hsrc, hbase] at h
        exact Except.noConfusion h
      | some base =>
        simp only [hsrc, hbase] at h
        cases hcd : ch.fDescriptor.GetClusterDescriptor
            (ch.fDescriptor.findClusterId columnId g) with
        | none =>
          simp only [hcd] at h
          exact Except.noConfusion h
        | some cdesc =>
          simp only [hcd] at h
          cases hrange : cdesc.GetColumnRange columnId with
          | none =>
            simp only [hrange] at h
            exact Except.noConfusion h
          | some range =>
            simp only [hrange] at h
            cases hrow : ch.fNElementsPerColumnPerSource[i]? with
            | none =>
              simp only [hrow] at h
              exact Except.noConfusion h
            | some row =>
              simp only [hrow] at h
              cases hcb : row[columnId]? with
              | none =>
                simp only [hcb] at h
                exact Except.noConfusion h
              | some colBase =>
                simp only [hcb, Except.ok.injEq] at h
                exact ⟨i, src, base, cdesc, range, row, colBase, rfl, hsrc, hbase,
                  rfl, hrange, hrow, hcb, h.symm⟩

/-- Inversion of a successful dispatch by cluster-relative index. -/
theorem PopulatePageCluster_ok (ch : RPageSourceChain)
    (columnId clusterId localEntryIndex : Nat) (r : PopClusterResult)
    (h : ch.PopulatePageCluster columnId clusterId localEntryIndex = Except.ok r) :
    ∃ i src base cdesc range row colBase,
      firstOwner ch.fNClusterPerSource clusterId 0 ch.fSources.length = some i ∧
      ch.fSources[i]? = some src ∧
      ch.fNClusterPerSource[i]? = some base ∧
      ch.fDescriptor.GetClusterDescriptor clusterId = some cdesc ∧
      cdesc.GetColumnRange columnId = some range ∧
      ch.fNElementsPerColumnPerSource[i]? = some row ∧
      row[columnId]? = some colBase ∧
      r = { page := (src.popPageCluster columnId (clusterId - base) localEntryIndex).SetWindow
              ((src.popPageCluster columnId (clusterId - base) localEntryIndex).fGlobalRangeFirst
                + colBase)
              { fId := clusterId, fIndexOffset := range.fFirstElementIndex },
            delegated := src.popPageCluster columnId (clusterId - base) localEntryIndex,
            sourceIndex := i,
            localClusterId := clusterId - base,
            localEntryIndex := localEntryIndex,
            chainAfter := { ch with fPageMapper := ch.fPageMapper.emplace (src.popPageCluster columnId (clusterId - base) localEntryIndex).fBuffer i } } := by
  unfold RPageSourceChain.PopulatePageCluster at h
  cases hfo : firstOwner ch.fNClusterPerSource clusterId 0 ch.fSources.length with
  | none =>
    simp only [hfo] at h
    exact Except.noConfusion h
  | some i =>
    simp only [hfo] at h
    cases hsrc : ch.fSources[i]? with
    | none =>
      simp only [hsrc] at h
      exact Except.noConfusion h
    | some src =>
      cases hbase : ch.fNClusterPerSource[i]? with
      | none =>
        simp only [hsrc, hbase] at h
        exact Except.noConfusion h
      | some base =>
        simp only [hsrc, hbase] at h
        cases hcd : ch.fDescriptor.GetClusterDescriptor clusterId with
        | none =>
          simp only [hcd] at h
          exact Except.noConfusion h
        | some cdesc =>
          simp only [hcd] at h
          cases hrange : cdesc.GetColumnRange columnId with
          | none =>
            simp only [hrange] at h
            exact Except.noConfusion h
          | some range =>
            simp only [hrange] at h
            cases hrow : ch.fNElementsPerColumnPerSource[i]? with
            | none =>
              simp only [hrow] at h
              exact Except.noConfusion h
            | some row =>
              simp only [hrow] at h
              cases hcb : row[columnId]? with
              | none =>
                simp only [hcb] at h
                exact Except.noConfusion h
              | some colBase =>
                simp only [hcb, Except.ok.injEq] at h
                exact ⟨i, src, base, cdesc, range, row, colBase, rfl, hsrc, hbase,
                  rfl, hrange, hrow, hcb, h.symm⟩

theorem PopulatePageGlobal_err_of_scan (ch : RPageSourceChain) (columnId g : Nat)
    (h : firstOwner ch.fNEntryPerSource g 0 ch.fSources.length = none) :
    ch.PopulatePageGlobal columnId g = Except.error ChainErr.indexOutOfRange := by
  unfold RPageSourceChain.PopulatePageGlobal
  rw [h]

theorem PopulatePageCluster_err_of_scan (ch : RPageSourceChain)
    (columnId clusterId localEntryIndex : Nat)
    (h : firstOwner ch.fNClusterPerSource clusterId 0 ch.fSources.length = none) :
    ch.PopulatePageCluster columnId clusterId localEntryIndex =
      Except.error ChainErr.indexOutOfRange := by
  unfold RPageSourceChain.PopulatePageCluster
  rw [h]

/-- Claim C1: for every chain of N sources and every global entry index g with
entryBase[i] ≤ g < entryBase[i+1], PopulatePage by global entry index routes
to source i and delegates with local entry index g - entryBase[i], where
entryBase[i] is the sum of the entry counts of sources 0..i-1. -/
theorem claim_C1_dispatch_by_entry (ntupleName : String) (sources : List RPageSource)
    (options : RNTupleReadOptions) (ch0 : RPageSourceChain) (d : RNTupleDescriptor)
    (columnId i g bi bi1 : Nat)
    (hc : mkChainOwned ntupleName sources options = Except.ok ch0)
    (hbi : ch0.fNEntryPerSource[i]? = some bi)
    (hbi1 : ch0.fNEntryPerSource[i + 1]? = some bi1)
    (hlo : bi ≤ g) (hhi : g < bi1) :
    bi = ((sources.map (fun s => s.nEntries)).take i).sum ∧
    firstOwner (ch0.Attach d).fNEntryPerSource g 0 (ch0.Attach d).fSources.length =
      some i ∧
    ∃ s, (ch0.Attach d).fSources[i]? = some s ∧
      ∀ r, (ch0.Attach d).PopulatePageGlobal columnId g = Except.ok r →
        r.sourceIndex = i ∧ r.localIndex = g - bi ∧
        r.delegated = s.popPageGlobal columnId (g - bi) := by
  obtain ⟨-, -, hsrcs, hiv, -, -, -⟩ := mkChainOwned_ok ntupleName sources options ch0 hc
  obtain ⟨heb, -, -⟩ := InitializeVariables_ok sources _ _ _ hiv
  have hbiP : (prefixSums (sources.map (fun s => s.nEntries)))[i]? = some bi := by
    rw [← heb]; exact hbi
  have hbi1P : (prefixSums (sources.map (fun s => s.nEntries)))[i + 1]? = some bi1 := by
    rw [← heb]; exact hbi1
  obtain ⟨hile, hbival⟩ := prefixSums_getElem?_inv _ i bi hbiP
  have hi1le : i + 1 ≤ (sources.map (fun s => s.nEntries)).length := by
    have hlt := getElem?_some_lt hbi1P
    rw [prefixSums_length] at hlt
    omega
  have hilt : i < sources.length := by
    rw [List.length_map] at hi1le
    omega
  have hfo : firstOwner ch0.fNEntryPerSource g 0 ch0.fSources.length = some i := by
    rw [heb, hsrcs]
    refine firstOwner_eq_some _ g sources.length 0 i (Nat.zero_le _)
      (by omega) ?_ ?_
    · intro k hk0 hki
      refine ⟨((sources.map (fun s => s.nEntries)).take (k + 1)).sum,
        prefixSums_getElem? _ (k + 1) (by omega), ?_⟩
      have hmono := take_sum_mono (sources.map (fun s => s.nEntries))
        (show k + 1 ≤ i by omega)
      omega
    · exact ⟨bi1, hbi1P, hhi⟩
  have hsval : sources[i]? = some (sources.get ⟨i, hilt⟩) := List.getElem?_eq_getElem hilt
  refine ⟨hbival, hfo, sources.get ⟨i, hilt⟩, ?_, ?_⟩
  · show ch0.fSources[i]? = some (sources.get ⟨i, hilt⟩)
    rw [hsrcs]
    exact hsval
  · intro r hr
    obtain ⟨i2, src2, base2, cdesc, range, row, colBase, hfo2, hsrc2, hbase2,
      -, -, -, -, hrrec⟩ := PopulatePageGlobal_ok (ch0.Attach d) columnId g r hr
    have hfo2c : firstOwner ch0.fNEntryPerSource g 0 ch0.fSources.length = some i2 := hfo2
    have hii : i2 = i := by
      have heq := hfo.symm.trans hfo2c
      exact (Option.some.injEq _ _ ▸ heq).symm
    subst hii
    have hsrc2c : ch0.fSources[i2]? = some src2 := hsrc2
    have hbase2c : ch0.fNEntryPerSource[i2]? = some base2 := hbase2
    rw [hsrcs, hsval, Option.some.injEq] at hsrc2c
    rw [hbi, Option.some.injEq] at hbase2c
    subst hsrc2c
    subst hbase2c
    rw [hrrec]
    exact ⟨rfl, rfl, rfl⟩

/-- Claim C1 witness: in the fixture, global entry 120 routes to source 1
(source B) with local index 20. -/
theorem claim_C1_dispatch_by_entry_witness :
    100 = (([srcA, srcB].map (fun s => s.nEntries)).take 1).sum ∧
    firstOwner (chainT0.Attach mergedT).fNEntryPerSource 120 0
      (chainT0.Attach mergedT).fSources.length = some 1 ∧
    rT120.sourceIndex = 1 ∧ rT120.localIndex = 120 - 100 ∧
    rT120.delegated = srcB.popPageGlobal 0 (120 - 100) := by
  obtain ⟨h1, h2, s, hs, h3⟩ := claim_C1_dispatch_by_entry "ntpl" [srcA, srcB] optsT
    chainT0 mergedT 0 1 120 100 150 rfl rfl rfl (by decide) (by decide)
  have hsB : s = srcB := by
    have hv : (chainT0.Attach mergedT).fSources[1]? = some srcB := rfl
    have := hs.symm.trans hv
    exact Option.some.injEq _ _ ▸ this
  subst hsB
  have h4 := h3 rT120 rfl
  exact ⟨h1, h2, h4.1, h4.2.1, h4.2.2⟩

/-- Claim C4: for every global cluster id with clusterBase[i] ≤ clusterId <
clusterBase[i+1], PopulatePage by cluster-relative index routes to source i,
delegates with local cluster id clusterId - clusterBase[i] and the unchanged
cluster-local entry offset, and the returned page's attribution record carries
the original global clusterId. -/
theorem claim_C4_dispatch_by_cluster (ntupleName : String) (sources : List RPageSource)
    (options : RNTupleReadOptions) (ch0 : RPageSourceChain) (d : RNTupleDescriptor)
    (columnId i cid cbi cbi1 localIdx : Nat)
    (hc : mkChainOwned ntupleName sources options = Except.ok ch0)
    (hbi : ch0.fNClusterPerSource[i]? = some cbi)
    (hbi1 : ch0.fNClusterPerSource[i + 1]? = some cbi1)
    (hlo : cbi ≤ cid) (hhi : cid < cbi1) :
    firstOwner (ch0.Attach d).fNClusterPerSource cid 0 (ch0.Attach d).fSources.length =
      some i ∧
    ∃ s, (ch0.Attach d).fSources[i]? = some s ∧
      ∀ r, (ch0.Attach d).PopulatePageCluster columnId cid localIdx = Except.ok r →
        r.sourceIndex = i ∧ r.localClusterId = cid - cbi ∧
        r.localEntryIndex = localIdx ∧
        r.delegated = s.popPageCluster columnId (cid - cbi) localIdx ∧
        r.page.fClusterInfo.fId = cid := by
  obtain ⟨-, -, hsrcs, hiv, -, -, -⟩ := mkChainOwned_ok ntupleName sources options ch0 hc
  obtain ⟨-, hcb, -⟩ := InitializeVariables_ok sources _ _ _ hiv
  have hbiP : (prefixSums (sources.map (fun s => s.descriptor.GetNClusters)))[i]? =
      some cbi := by
    rw [← hcb]; exact hbi
  have hbi1P : (prefixSums (sources.map (fun s => s.descriptor.GetNClusters)))[i + 1]? =
      some cbi1 := by
    rw [← hcb]; exact hbi1
  obtain ⟨hile, hbival⟩ := prefixSums_getElem?_inv _ i cbi hbiP
  have hi1le : i + 1 ≤ (sources.map (fun s => s.descriptor.GetNClusters)).length := by
    have hlt := getElem?_some_lt hbi1P
    rw [prefixSums_length] at hlt
    omega
  have hilt : i < sources.length := by
    rw [List.length_map] at hi1le
    omega
  have hfo : firstOwner ch0.fNClusterPerSource cid 0 ch0.fSources.length = some i := by
    rw [hcb, hsrcs]
    refine firstOwner_eq_some _ cid sources.length 0 i (Nat.zero_le _)
      (by omega) ?_ ?_
    · intro k hk0 hki
      refine ⟨((sources.map (fun s => s.descriptor.GetNClusters)).take (k + 1)).sum,
        prefixSums_getElem? _ (k + 1) (by omega), ?_⟩
      have hmono := take_sum_mono (sources.map (fun s => s.descriptor.GetNClusters))
        (show k + 1 ≤ i by omega)
      omega
    · exact ⟨cbi1, hbi1P, hhi⟩
  have hsval : sources[i]? = some (sources.get ⟨i, hilt⟩) := List.getElem?_eq_getElem hilt
  refine ⟨hfo, sources.get ⟨i, hilt⟩, ?_, ?_⟩
  · show ch0.fSources[i]? = some (sources.get ⟨i, hilt⟩)
    rw [hsrcs]
    exact hsval
  · intro r hr
    obtain ⟨i2, src2, base2, cdesc, range, row, colBase, hfo2, hsrc2, hbase2,
      -, -, -, -, hrrec⟩ := PopulatePageCluster_ok (ch0.Attach d) columnId cid localIdx r hr
    have hfo2c : firstOwner ch0.fNClusterPerSource cid 0 ch0.fSources.length = some i2 := hfo2
    have hii : i2 = i := by
      have heq := hfo.symm.trans hfo2c
      exact (Option.some.injEq _ _ ▸ heq).symm
    subst hii
    have hsrc2c : ch0.fSources[i2]? = some src2 := hsrc2
    have hbase2c : ch0.fNClusterPerSource[i2]? = some base2 := hbase2
    rw [hsrcs, hsval, Option.some.injEq] at hsrc2c
    rw [hbi, Option.some.injEq] at hbase2c
    subst hsrc2c
    subst hbase2c
    rw [hrrec]
    exact ⟨rfl, rfl, rfl, rfl, rfl⟩

/-- Claim C4 witness: in the fixture, global cluster 2 routes to source 1
(source B) with local cluster 0, the local entry offset 7 unchanged, and the
page is attributed to global cluster 2. -/
theorem claim_C4_dispatch_by_cluster_witness :
    firstOwner (chainT0.Attach mergedT).fNClusterPerSource 2 0
      (chainT0.Attach mergedT).fSources.length = some 1 ∧
    rC2.sourceIndex = 1 ∧ rC2.localClusterId = 2 - 2 ∧ rC2.localEntryIndex = 7 ∧
    rC2.delegated = srcB.popPageCluster 0 (2 - 2) 7 ∧
    rC2.page.fClusterInfo.fId = 2 := by
  obtain ⟨h1, s, hs, h3⟩ := claim_C4_dispatch_by_cluster "ntpl" [srcA, srcB] optsT
    chainT0 mergedT 0 1 2 2 3 7 rfl rfl rfl (by decide) (by decide)
  have hsB : s = srcB := by
    have hv : (chainT0.Attach mergedT).fSources[1]? = some srcB := rfl
    have := hs.symm.trans hv
    exact Option.some.injEq _ _ ▸ this
  subst hsB
  have h4 := h3 rC2 rfl
  exact ⟨h1, h4.1, h4.2.1, h4.2.2.1, h4.2.2.2.1, h4.2.2.2.2⟩

/-- Claim C7: a dispatch with global entry index g ≥ totalEntries, or a global
cluster id ≥ totalClusters, makes the owner scan run off the end and the
dispatch fail with the index-out-of-range error before any source is chosen. -/
theorem claim_C7_out_of_range (ntupleName : String) (sources : List RPageSource)
    (options : RNTupleReadOptions) (ch0 : RPageSourceChain) (d : RNTupleDescriptor)
    (columnId g cid idx : Nat)
    (hc : mkChainOwned ntupleName sources options = Except.ok ch0) :
    ((sources.map (fun s => s.nEntries)).sum ≤ g →
      firstOwner (ch0.Attach d).fNEntryPerSource g 0 (ch0.Attach d).fSources.length =
        none ∧
      (ch0.Attach d).PopulatePageGlobal columnId g =
        Except.error ChainErr.indexOutOfRange) ∧
    ((sources.map (fun s => s.descriptor.GetNClusters)).sum ≤ cid →
      firstOwner (ch0.Attach d).fNClusterPerSource cid 0 (ch0.Attach d).fSources.length =
        none ∧
      (ch0.Attach d).PopulatePageCluster columnId cid idx =
        Except.error ChainErr.indexOutOfRange) := by
  obtain ⟨-, -, hsrcs, hiv, -, -, -⟩ := mkChainOwned_ok ntupleName sources options ch0 hc
  obtain ⟨heb, hcb, -⟩ := InitializeVariables_ok sources _ _ _ hiv
  constructor
  · intro hg
    have hfo : firstOwner ch0.fNEntryPerSource g 0 ch0.fSources.length = none := by
      rw [heb, hsrcs]
      refine firstOwner_eq_none _ g sources.length 0 ?_
      intro k hk0 hkn
      refine ⟨((sources.map (fun s => s.nEntries)).take (k + 1)).sum,
        prefixSums_getElem? _ (k + 1) (by simp; omega), ?_⟩
      have hmono := take_sum_mono (sources.map (fun s => s.nEntries))
        (show k + 1 ≤ (sources.map (fun s => s.nEntries)).length by simp; omega)
      rw [List.take_length] at hmono
      omega
    exact ⟨hfo, PopulatePageGlobal_err_of_scan (ch0.Attach d) columnId g hfo⟩
  · intro hcid
    have hfo : firstOwner ch0.fNClusterPerSource cid 0 ch0.fSources.length = none := by
      rw [hcb, hsrcs]
      refine firstOwner_eq_none _ cid sources.length 0 ?_
      intro k hk0 hkn
      refine ⟨((sources.map (fun s => s.descriptor.GetNClusters)).take (k + 1)).sum,
        prefixSums_getElem? _ (k + 1) (by simp; omega), ?_⟩
      have hmono := take_sum_mono (sources.map (fun s => s.descriptor.GetNClusters))
        (show k + 1 ≤ (sources.map (fun s => s.descriptor.GetNClusters)).length by
          simp; omega)
      rw [List.take_length] at hmono
      omega
    exact ⟨hfo, PopulatePageCluster_err_of_scan (ch0.Attach d) columnId cid idx hfo⟩

/-- Claim C7 witness: in the fixture (150 entries, 3 clusters), entry 150 and
cluster 3 both fail with the index-out-of-range error. -/
theorem claim_C7_out_of_range_witness :
    (chainT0.Attach mergedT).PopulatePageGlobal 0 150 =
      Except.error ChainErr.indexOutOfRange ∧
    (chainT0.Attach mergedT).PopulatePageCluster 0 3 0 =
      Except.error ChainErr.indexOutOfRange := by
  have h := claim_C7_out_of_range "ntpl" [srcA, srcB] optsT chainT0 mergedT 0 150 3 0 rfl
  exact ⟨(h.1 (by decide)).2, (h.2 (by decide)).2⟩

/-- Claim C3: for every successful dispatch, by global entry index or by
cluster-relative index, routed to source i, the returned page's global starting
element offset equals the source-local starting element offset of the page the
source delivered plus columnElementBase[i][c] for the requested column c. -/
theorem claim_C3_element_offset (ch : RPageSourceChain) (columnId : Nat) :
    (∀ g r, ch.PopulatePageGlobal columnId g = Except.ok r →
      ∃ src colBase,
        ch.fSources[r.sourceIndex]? = some src ∧
        r.delegated = src.popPageGlobal columnId r.localIndex ∧
        (ch.fNElementsPerColumnPerSource[r.sourceIndex]?).bind
          (fun row => row[columnId]?) = some colBase ∧
        r.page.fGlobalRangeFirst = r.delegated.fGlobalRangeFirst + colBase ∧
        r.page.fBuffer = r.delegated.fBuffer) ∧
    (∀ cid idx r, ch.PopulatePageCluster columnId cid idx = Except.ok r →
      ∃ src colBase,
        ch.fSources[r.sourceIndex]? = some src ∧
        r.delegated = src.popPageCluster columnId r.localClusterId r.localEntryIndex ∧
        (ch.fNElementsPerColumnPerSource[r.sourceIndex]?).bind
          (fun row => row[columnId]?) = some colBase ∧
        r.page.fGlobalRangeFirst = r.delegated.fGlobalRangeFirst + colBase ∧
        r.page.fBuffer = r.delegated.fBuffer) := by
  constructor
  · intro g r hr
    obtain ⟨i, src, base, cdesc, range, row, colBase, hfo, hsrc, hbase, hcd, hrange,
      hrow, hcb, hrrec⟩ := PopulatePageGlobal_ok ch columnId g r hr
    subst hrrec
    refine ⟨src, colBase, hsrc, rfl, ?_, rfl, rfl⟩
    rw [hrow, Option.some_bind]
    exact hcb
  · intro cid idx r hr
    obtain ⟨i, src, base, cdesc, range, row, colBase, hfo, hsrc, hbase, hcd, hrange,
      hrow, hcb, hrrec⟩ := PopulatePageCluster_ok ch columnId cid idx r hr
    subst hrrec
    refine ⟨src, colBase, hsrc, rfl, ?_, rfl, rfl⟩
    rw [hrow, Option.some_bind]
    exact hcb

/-- Claim C3 witness: in the fixture, the page delivered by source B for
global entry 120 (local element 20) is re-windowed to start at global element
20 + 100, and likewise along the cluster path. -/
theorem claim_C3_element_offset_witness :
    rT120.page.fGlobalRangeFirst = rT120.delegated.fGlobalRangeFirst + 100 ∧
    rC2.page.fGlobalRangeFirst = rC2.delegated.fGlobalRangeFirst + 100 := by
  obtain ⟨hg, hcl⟩ := claim_C3_element_offset chainT 0
  constructor
  · obtain ⟨src, colBase, -, -, hbind, hoff, -⟩ := hg 120 rT120 rfl
    have h100 : (chainT.fNElementsPerColumnPerSource[rT120.sourceIndex]?).bind
        (fun row => row[0]?) = some 100 := rfl
    have hcbv : colBase = 100 := by
      have := h100.symm.trans hbind
      exact (Option.some.injEq _ _ ▸ this).symm
    rw [hcbv] at hoff
    exact hoff
  · obtain ⟨src, colBase, -, -, hbind, hoff, -⟩ := hcl 2 7 rC2 rfl
    have h100 : (chainT.fNElementsPerColumnPerSource[rC2.sourceIndex]?).bind
        (fun row => row[0]?) = some 100 := rfl
    have hcbv : colBase = 100 := by
      have := h100.symm.trans hbind
      exact (Option.some.injEq _ _ ▸ this).symm
    rw [hcbv] at hoff
    exact hoff

theorem eraseKey_self (m : PageMapper) (k : Nat) : m.eraseKey k k = none := by
  unfold PageMapper.eraseKey
  simp

theorem emplace_isSome (m : PageMapper) (k v : Nat) : ∃ j, m.emplace k v k = some j := by
  unfold PageMapper.emplace
  cases hm : m k with
  | some w => exact ⟨w, by simp [hm]⟩
  | none => exact ⟨v, by simp [hm]⟩

theorem ReleasePage_null (ch : RPageSourceChain) (page : RPage)
    (hnull : page.IsNull = true) :
    ch.ReleasePage page = (ReleaseAction.noop, ch) := by
  simp [RPageSourceChain.ReleasePage, hnull]

theorem ReleasePage_tracked (ch : RPageSourceChain) (page : RPage) (i : Nat)
    (hnull : page.IsNull = false) (hi : ch.fPageMapper page.fBuffer = some i) :
    ch.ReleasePage page =
      (ReleaseAction.released i,
        { ch with fPageMapper := ch.fPageMapper.eraseKey page.fBuffer }) := by
  simp [RPageSourceChain.ReleasePage, hnull, hi]

theorem ReleasePage_untracked (ch : RPageSourceChain) (page : RPage)
    (hnull : page.IsNull = false) (hi : ch.fPageMapper page.fBuffer = none) :
    ch.ReleasePage page = (ReleaseAction.fatalViolation, ch) := by
  simp [RPageSourceChain.ReleasePage, hnull, hi]

/-- Claim C6: releasing a non-null page whose buffer identity is tracked
forwards the release to the recorded owning source and erases the tracker
entry, so after a populate-then-release round trip the tracker no longer holds
that buffer identity and a second release of the same page is the fatal
consistency violation; an untracked non-null release is the fatal violation;
releasing a null page is a no-op. -/
theorem claim_C6_release_tracker (ch : RPageSourceChain) (page : RPage) :
    (page.IsNull = true → ch.ReleasePage page = (ReleaseAction.noop, ch)) ∧
    (page.IsNull = false → ∀ i, ch.fPageMapper page.fBuffer = some i →
      (ch.ReleasePage page).1 = ReleaseAction.released i ∧
      (ch.ReleasePage page).2.fPageMapper page.fBuffer = none ∧
      ((ch.ReleasePage page).2.ReleasePage page).1 = ReleaseAction.fatalViolation) ∧
    (page.IsNull = false → ch.fPageMapper page.fBuffer = none →
      (ch.ReleasePage page).1 = ReleaseAction.fatalViolation) ∧
    (∀ columnId g r, ch.PopulatePageGlobal columnId g = Except.ok r →
      r.page.IsNull = false →
      ∃ i, r.chainAfter.fPageMapper r.page.fBuffer = some i ∧
        (r.chainAfter.ReleasePage r.page).1 = ReleaseAction.released i ∧
        (r.chainAfter.ReleasePage r.page).2.fPageMapper r.page.fBuffer = none) := by
  refine ⟨fun hnull => ReleasePage_null ch page hnull, ?_, ?_, ?_⟩
  · intro hnull i hi
    have h1 := ReleasePage_tracked ch page i hnull hi
    refine ⟨by rw [h1], ?_, ?_⟩
    · rw [h1]
      exact eraseKey_self ch.fPageMapper page.fBuffer
    · rw [h1]
      rw [ReleasePage_untracked _ page hnull (eraseKey_self ch.fPageMapper page.fBuffer)]
  · intro hnull hi
    rw [ReleasePage_untracked ch page hnull hi]
  · intro columnId g r hr hnull
    obtain ⟨i, src, base, cdesc, range, row, colBase, hfo, hsrc, hbase, hcd, hrange,
      hrow, hcb, hrrec⟩ := PopulatePageGlobal_ok ch columnId g r hr
    have hbuf : r.page.fBuffer = (src.popPageGlobal columnId (g - base)).fBuffer := by
      rw [hrrec]
      rfl
    have hmap : r.chainAfter.fPageMapper =
        ch.fPageMapper.emplace (src.popPageGlobal columnId (g - base)).fBuffer i := by
      rw [hrrec]
    obtain ⟨j, hj⟩ := emplace_isSome ch.fPageMapper
      (src.popPageGlobal columnId (g - base)).fBuffer i
    have hjr : r.chainAfter.fPageMapper r.page.fBuffer = some j := by
      rw [hmap, hbuf]
      exact hj
    have h1 := ReleasePage_tracked r.chainAfter r.page j hnull hjr
    refine ⟨j, hjr, by rw [h1], ?_⟩
    rw [h1]
    exact eraseKey_self r.chainAfter.fPageMapper r.page.fBuffer

/-- Claim C6 witness: the fixture round trip at global entry 120 tracks buffer
13 to source 1, releases it there, erases the entry, and a repeated release is
the fatal violation; releasing the null page is a no-op. -/
theorem claim_C6_release_tracker_witness :
    rT120.chainAfter.fPageMapper rT120.page.fBuffer = some 1 ∧
    (rT120.chainAfter.ReleasePage rT120.page).1 = ReleaseAction.released 1 ∧
    (rT120.chainAfter.ReleasePage rT120.page).2.fPageMapper rT120.page.fBuffer = none ∧
    ((rT120.chainAfter.ReleasePage rT120.page).2.ReleasePage rT120.page).1 =
      ReleaseAction.fatalViolation ∧
    chainT.ReleasePage junkPage = (ReleaseAction.noop, chainT) := by
  have h := claim_C6_release_tracker rT120.chainAfter rT120.page
  have hm : rT120.chainAfter.fPageMapper rT120.page.fBuffer = some 1 := rfl
  obtain ⟨h1, h2, h3⟩ := h.2.1 rfl 1 hm
  have hnoop := (claim_C6_release_tracker chainT junkPage).1 rfl
  exact ⟨hm, h1, h2, h3, hnoop⟩

theorem compareStep_none_of_same (d0 di : RNTupleDescriptor) (i : Nat)
    (hfd : di.fieldDescriptors = d0.fieldDescriptors)
    (hcd : di.columnDescriptors = d0.columnDescriptors) :
    compareStep d0 di i = none := by
  unfold compareStep
  rw [if_neg]
  · rw [firstHit_eq_none _ d0.GetNFields 0 (fun k hk0 hkn => by
      simp [RNTupleDescriptor.GetFieldDescriptor, hfd])]
    rw [firstHit_eq_none _ d0.GetNColumns 0 (fun k hk0 hkn => by
      simp [RNTupleDescriptor.GetColumnDescriptor, hcd])]
  · push_neg
    constructor
    · unfold RNTupleDescriptor.GetNFields
      rw [hfd]
    · unfold RNTupleDescriptor.GetNColumns
      rw [hcd]

theorem compareStep_count (d0 di : RNTupleDescriptor) (i : Nat)
    (h : d0.GetNFields ≠ di.GetNFields ∨ d0.GetNColumns ≠ di.GetNColumns) :
    compareStep d0 di i = some (Diag.countMismatch i) := by
  unfold compareStep
  rw [if_pos h]

theorem compareStep_field (d0 di : RNTupleDescriptor) (i j : Nat)
    (hf : d0.GetNFields = di.GetNFields) (hcnt : d0.GetNColumns = di.GetNColumns)
    (hj : j < d0.GetNFields)
    (hne : d0.GetFieldDescriptor j ≠ di.GetFieldDescriptor j)
    (hmin : ∀ j', j' < j → d0.GetFieldDescriptor j' = di.GetFieldDescriptor j') :
    compareStep d0 di i = some (Diag.fieldMismatch i j) := by
  unfold compareStep
  rw [if_neg (by push_neg; exact ⟨hf, hcnt⟩)]
  rw [firstHit_eq_some _ d0.GetNFields 0 j (Nat.zero_le _) (by omega)
    (by simp only [decide_eq_true_eq]; exact hne)
    (fun k hk0 hkj => by simp [hmin k hkj])]

theorem compareStep_column (d0 di : RNTupleDescriptor) (i j : Nat)
    (hf : d0.GetNFields = di.GetNFields) (hcnt : d0.GetNColumns = di.GetNColumns)
    (hfields : ∀ j', j' < d0.GetNFields →
      d0.GetFieldDescriptor j' = di.GetFieldDescriptor j')
    (hj : j < d0.GetNColumns)
    (hne : d0.GetColumnDescriptor j ≠ di.GetColumnDescriptor j)
    (hmin : ∀ j', j' < j → d0.GetColumnDescriptor j' = di.GetColumnDescriptor j') :
    compareStep d0 di i = some (Diag.columnMismatch i j) := by
  unfold compareStep
  rw [if_neg (by push_neg; exact ⟨hf, hcnt⟩)]
  rw [firstHit_eq_none _ d0.GetNFields 0 (fun k hk0 hkn => by
    simp [hfields k (by omega)])]
  rw [firstHit_eq_some _ d0.GetNColumns 0 j (Nat.zero_le _) (by omega)
    (by simp only [decide_eq_true_eq]; exact hne)
    (fun k hk0 hkj => by simp [hmin k hkj])]

theorem compareLoop_all_none (d0 : RNTupleDescriptor) :
    ∀ (t : List RPageSource) (i0 : Nat),
      (∀ (k : Nat) (sk : RPageSource), t[k]? = some sk →
        compareStep d0 sk.descriptor (i0 + k) = none) →
      compareLoop d0 i0 t = (false, [])
  | [], _, _ => rfl
  | s :: rest, i0, h => by
    have h0 := h 0 s (by simp)
    simp only [Nat.add_zero] at h0
    unfold compareLoop
    rw [h0]
    exact compareLoop_all_none d0 rest (i0 + 1) (fun k sk hk => by
      have hx := h (k + 1) sk (by simpa using hk)
      rwa [show i0 + (k + 1) = i0 + 1 + k by omega] at hx)

theorem compareLoop_first_hit (d0 : RNTupleDescriptor) :
    ∀ (t : List RPageSource) (i0 k : Nat) (sk : RPageSource) (dg : Diag),
      t[k]? = some sk →
      compareStep d0 sk.descriptor (i0 + k) = some dg →
      (∀ (k' : Nat) (sk' : RPageSource), k' < k → t[k']? = some sk' →
        compareStep d0 sk'.descriptor (i0 + k') = none) →
      compareLoop d0 i0 t = (true, [dg])
  | [], _, k, _, _, hk, _, _ => by
    rw [List.getElem?_nil] at hk
    exact Option.noConfusion hk
  | s :: rest, i0, 0, sk, dg, hk, hstep, _ => by
    rw [List.getElem?_cons_zero, Option.some.injEq] at hk
    subst hk
    unfold compareLoop
    simp only [Nat.add_zero] at hstep
    rw [hstep]
  | s :: rest, i0, k + 1, sk, dg, hk, hstep, hmin => by
    rw [List.getElem?_cons_succ] at hk
    have h0 := hmin 0 s (by omega) (by simp)
    simp only [Nat.add_zero] at h0
    unfold compareLoop
    rw [h0]
    refine compareLoop_first_hit d0 rest (i0 + 1) k sk dg hk ?_ ?_
    · rwa [show i0 + 1 + k = i0 + (k + 1) by omega]
    · intro k2 sk2 hk2 hsk2
      have hx := hmin (k2 + 1) sk2 (by omega) (by simpa using hsk2)
      rwa [show i0 + (k2 + 1) = i0 + 1 + k2 by omega] at hx

/-- Claim C8: the compatibility check compares each source 1..n-1 against
source 0 in the order field/column counts, then field descriptors, then column
descriptors; the first mismatch sets the degraded-mode flag, emits exactly one
diagnostic and stops all further comparison, while fully identical schemas
leave the flag unset; the flag stored at construction is the comparison
result. -/
theorem claim_C8_compare_metadata (sources : List RPageSource) (s0 : RPageSource)
    (h0 : sources[0]? = some s0) :
    ((∀ s ∈ sources, s.descriptor.fieldDescriptors = s0.descriptor.fieldDescriptors ∧
        s.descriptor.columnDescriptors = s0.descriptor.columnDescriptors) →
      CompareFileMetaData sources = (false, [])) ∧
    (∀ ntupleName options ch, mkChainOwned ntupleName sources options = Except.ok ch →
      ch.fDegraded = (CompareFileMetaData sources).1) ∧
    (∀ (i : Nat) (si : RPageSource), 1 ≤ i → sources[i]? = some si →
      (∀ (k : Nat) (sk : RPageSource), 1 ≤ k → k < i → sources[k]? = some sk →
        sk.descriptor.fieldDescriptors = s0.descriptor.fieldDescriptors ∧
        sk.descriptor.columnDescriptors = s0.descriptor.columnDescriptors) →
      ((s0.descriptor.GetNFields ≠ si.descriptor.GetNFields ∨
          s0.descriptor.GetNColumns ≠ si.descriptor.GetNColumns) →
        CompareFileMetaData sources = (true, [Diag.countMismatch i])) ∧
      (∀ j, s0.descriptor.GetNFields = si.descriptor.GetNFields →
        s0.descriptor.GetNColumns = si.descriptor.GetNColumns →
        j < s0.descriptor.GetNFields →
        s0.descriptor.GetFieldDescriptor j ≠ si.descriptor.GetFieldDescriptor j →
        (∀ j', j' < j →
          s0.descriptor.GetFieldDescriptor j' = si.descriptor.GetFieldDescriptor j') →
        CompareFileMetaData sources = (true, [Diag.fieldMismatch i j])) ∧
      (∀ j, s0.descriptor.GetNFields = si.descriptor.GetNFields →
        s0.descriptor.GetNColumns = si.descriptor.GetNColumns →
        (∀ j', j' < s0.descriptor.GetNFields →
          s0.descriptor.GetFieldDescriptor j' = si.descriptor.GetFieldDescriptor j') →
        j < s0.descriptor.GetNColumns →
        s0.descriptor.GetColumnDescriptor j ≠ si.descriptor.GetColumnDescriptor j →
        (∀ j', j' < j →
          s0.descriptor.GetColumnDescriptor j' = si.descriptor.GetColumnDescriptor j') →
        CompareFileMetaData sources = (true, [Diag.columnMismatch i j]))) := by
  cases sources with
  | nil =>
    rw [List.getElem?_nil] at h0
    exact Option.noConfusion h0
  | cons a rest =>
    rw [List.getElem?_cons_zero, Option.some.injEq] at h0
    have h0s : s0 = a := h0.symm
    subst h0s
    have hCF : CompareFileMetaData (s0 :: rest) = compareLoop s0.descriptor 1 rest := rfl
    refine ⟨?_, ?_, ?_⟩
    · intro hsame
      rw [hCF]
      refine compareLoop_all_none s0.descriptor rest 1 (fun k sk hk => ?_)
      obtain ⟨hfd, hcd⟩ := hsame sk (List.mem_cons_of_mem s0 (List.getElem?_mem hk))
      exact compareStep_none_of_same s0.descriptor sk.descriptor (1 + k) hfd hcd
    · intro ntupleName options ch hc
      exact (mkChainOwned_ok ntupleName (s0 :: rest) options ch hc).2.2.2.2.1
    · intro i si hi1 hii hprev
      cases i with
      | zero => omega
      | succ k =>
        rw [List.getElem?_cons_succ] at hii
        have hprevR : ∀ (k' : Nat) (sk' : RPageSource), k' < k → rest[k']? = some sk' →
            compareStep s0.descriptor sk'.descriptor (1 + k') = none := by
          intro k' sk' hk' hsk'
          obtain ⟨hfd, hcd⟩ := hprev (k' + 1) sk' (by omega) (by omega)
            (by simpa using hsk')
          exact compareStep_none_of_same s0.descriptor sk'.descriptor (1 + k') hfd hcd
        refine ⟨?_, ?_, ?_⟩
        · intro hcount
          rw [hCF]
          refine compareLoop_first_hit s0.descriptor rest 1 k si
            (Diag.countMismatch (k + 1)) hii ?_ hprevR
          rw [show 1 + k = k + 1 by omega]
          exact compareStep_count s0.descriptor si.descriptor (k + 1) hcount
        · intro j hf hcnt hj hne hmin
          rw [hCF]
          refine compareLoop_first_hit s0.descriptor rest 1 k si
            (Diag.fieldMismatch (k + 1) j) hii ?_ hprevR
          rw [show 1 + k = k + 1 by omega]
          exact compareStep_field s0.descriptor si.descriptor (k + 1) j hf hcnt hj hne hmin
        · intro j hf hcnt hfields hj hne hmin
          rw [hCF]
          refine compareLoop_first_hit s0.descriptor rest 1 k si
            (Diag.columnMismatch (k + 1) j) hii ?_ hprevR
          rw [show 1 + k = k + 1 by omega]
          exact compareStep_column s0.descriptor si.descriptor (k + 1) j hf hcnt
            hfields hj hne hmin

/-- Claim C8 witness: two identical schemas leave the flag unset; a chain whose
second source differs in field 0 reports exactly the one field mismatch. -/
theorem claim_C8_compare_metadata_witness :
    CompareFileMetaData [srcA, srcB] = (false, []) ∧
    CompareFileMetaData [srcA, srcD] = (true, [Diag.fieldMismatch 1 0]) := by
  obtain ⟨hsame, -, -⟩ := claim_C8_compare_metadata [srcA, srcB] srcA rfl
  obtain ⟨-, -, hmm⟩ := claim_C8_compare_metadata [srcA, srcD] srcA rfl
  have hvac : ∀ (k : Nat) (sk : RPageSource), 1 ≤ k → k < 1 → [srcA, srcD][k]? = some sk →
      sk.descriptor.fieldDescriptors = srcA.descriptor.fieldDescriptors ∧
      sk.descriptor.columnDescriptors = srcA.descriptor.columnDescriptors :=
    fun k sk hk1 hk2 _ => absurd (lt_of_lt_of_le hk2 hk1) (lt_irrefl k)
  obtain ⟨-, hfield, -⟩ := hmm 1 srcD (by omega) rfl hvac
  refine ⟨hsame (by decide), ?_⟩
  exact hfield 0 rfl rfl (by decide) (by decide)
    (fun j hj => absurd hj (Nat.not_lt_zero j))

/-- Claim C5 counterexample: Clone does not hand back the same source objects.
In the fixture, the chain's sources have clone depth 0 while the cloned
chain's sources have depth 1: each underlying source was duplicated through
RPageSource::Clone by the handle constructor that Clone invokes. -/
theorem claim_C5_clone_shared_counterexample :
    ¬ (∀ c, chainT0.Clone = Except.ok c → c.fSources = chainT0.fSources) := by
  intro h
  have hok : chainT0.Clone = Except.ok chainT0clone := rfl
  have hs := h chainT0clone hok
  have hd := congrArg (List.map RPageSource.cloneDepth) hs
  have h1 : chainT0clone.fSources.map RPageSource.cloneDepth = [1, 1] := rfl
  have h0 : chainT0.fSources.map RPageSource.cloneDepth = [0, 0] := rfl
  rw [h1, h0] at hd
  exact absurd hd (by decide)

/-- Claim C5 (amended): Clone produces a new, independent chain with the same
dataset name and read options and a fresh page tracker, whose sources are
independent duplicates (clones) of the underlying sources — same data, but
distinct objects rather than the sources themselves. -/
theorem claim_C5_clone_duplicates (ch c : RPageSourceChain)
    (h : ch.Clone = Except.ok c) :
    c.fNTupleName = ch.fNTupleName ∧ c.fOptions = ch.fOptions ∧
    c.fSources = ch.fSources.map RPageSource.CloneSrc ∧
    (∀ s ∈ ch.fSources, RPageSource.CloneSrc s ≠ s ∧
      (RPageSource.CloneSrc s).nEntries = s.nEntries ∧
      (RPageSource.CloneSrc s).descriptor = s.descriptor) ∧
    (∀ k, c.fPageMapper k = none) := by
  unfold RPageSourceChain.Clone mkChainFromRefs at h
  obtain ⟨hn, ho, hs, -, -, hm, -⟩ :=
    mkChainOwned_ok ch.fNTupleName (ch.fSources.map RPageSource.CloneSrc) ch.fOptions c h
  refine ⟨hn, ho, hs, ?_, ?_⟩
  · intro s hsm
    refine ⟨?_, rfl, rfl⟩
    intro he
    have hdep := congrArg RPageSource.cloneDepth he
    unfold RPageSource.CloneSrc at hdep
    simp only at hdep
    omega
  · intro k
    rw [hm]
    rfl

/-- Claim C5 witness: the fixture clone keeps name and options, duplicates the
two sources, and starts with an empty tracker. -/
theorem claim_C5_clone_duplicates_witness :
    chainT0clone.fNTupleName = chainT0.fNTupleName ∧
    chainT0clone.fOptions = chainT0.fOptions ∧
    chainT0clone.fSources = chainT0.fSources.map RPageSource.CloneSrc ∧
    (∀ k, chainT0clone.fPageMapper k = none) := by
  obtain ⟨h1, h2, h3, -, h5⟩ := claim_C5_clone_duplicates chainT0 chainT0clone rfl
  exact ⟨h1, h2, h3, h5⟩

/-- Claim C9 counterexample: constructing from an empty owned-source list does
not produce the distinct construction-precondition error the claim demands; it
fails with the out-of-range container access raised inside the table-building
step, which reads fSources.at(0). -/
theorem claim_C9_empty_list_counterexample :
    mkChainOwned "ntpl" [] optsT = Except.error ChainErr.atOutOfRange ∧
    InitializeVariables ([] : List RPageSource) = Except.error ChainErr.atOutOfRange ∧
    ChainErr.atOutOfRange ≠ ChainErr.constructionPrecondition :=
  ⟨rfl, rfl, by decide⟩

/-- Claim C9 (amended): construction from an empty source list is not guarded
by a dedicated check; the empty-list precondition is left to callers, and a
direct construction from an empty owned list fails inside the table-building
step (InitializeVariables) with the out-of-range container access, never with
a distinct construction-precondition error. -/
theorem claim_C9_empty_list_unchecked (ntupleName : String)
    (options : RNTupleReadOptions) :
    InitializeVariables ([] : List RPageSource) = Except.error ChainErr.atOutOfRange ∧
    mkChainOwned ntupleName [] options = Except.error ChainErr.atOutOfRange ∧
    mkChainOwned ntupleName [] options ≠
      Except.error ChainErr.constructionPrecondition := by
  have h2 : mkChainOwned ntupleName [] options = Except.error ChainErr.atOutOfRange := rfl
  refine ⟨rfl, h2, ?_⟩
  rw [h2]
  simp

/-- Claim C10: while building the per-column element table, construction reads
each source's cluster descriptor at index clusterCount - 1 in unsigned
arithmetic; for a source with zero clusters the index wraps to 2^64 - 1, the
access is out of range and construction fails; conversely a successful
construction with a non-empty column set implies every source held at least
one cluster and its highest-cluster access succeeded. -/
theorem claim_C10_zero_cluster_wrap (ntupleName : String) (sources : List RPageSource)
    (options : RNTupleReadOptions) (s0 s : RPageSource) (k : Nat)
    (h0 : sources[0]? = some s0) (hcols : 0 < s0.descriptor.GetNColumns)
    (hk : sources[k]? = some s) (hz : s.descriptor.GetNClusters = 0) :
    wrapSub1 s.descriptor.GetNClusters = 2 ^ 64 - 1 ∧
    s.descriptor.GetClusterDescriptor (wrapSub1 s.descriptor.GetNClusters) = none ∧
    mkChainOwned ntupleName sources options = Except.error ChainErr.atOutOfRange ∧
    (∀ (srcs2 : List RPageSource) (ch : RPageSourceChain) (s02 : RPageSource),
      mkChainOwned ntupleName srcs2 options = Except.ok ch →
      srcs2[0]? = some s02 → 0 < s02.descriptor.GetNColumns →
      ∀ (i : Nat) (si : RPageSource), srcs2[i]? = some si →
        1 ≤ si.descriptor.GetNClusters ∧
        (si.descriptor.GetClusterDescriptor
          (wrapSub1 si.descriptor.GetNClusters)).isSome = true) := by
  have hnil : s.descriptor.clusterDescriptors = [] := List.length_eq_zero.mp hz
  have hwrap : wrapSub1 s.descriptor.GetNClusters = 2 ^ 64 - 1 := by
    rw [hz]
    decide
  have hnone : s.descriptor.GetClusterDescriptor (wrapSub1 s.descriptor.GetNClusters) =
      none := by
    unfold RNTupleDescriptor.GetClusterDescriptor
    rw [hnil, List.getElem?_nil]
  have hcontrib : sourceColContrib s0.descriptor.GetNColumns s =
      Except.error ChainErr.atOutOfRange :=
    sourceColContrib_err_of_noCluster s0.descriptor.GetNColumns s hcols hnone
  have hIV : InitializeVariables sources = Except.error ChainErr.atOutOfRange := by
    unfold InitializeVariables
    simp only [h0]
    rw [buildRows_err s0.descriptor.GetNColumns sources
      (List.replicate s0.descriptor.GetNColumns 0) ⟨k, s, hk, hcontrib⟩]
  have hmk : mkChainOwned ntupleName sources options =
      Except.error ChainErr.atOutOfRange := by
    unfold mkChainOwned
    rw [hIV]
  refine ⟨hwrap, hnone, hmk, ?_⟩
  intro srcs2 ch s02 hc h02 hcols2 i si hi
  obtain ⟨-, -, -, hiv, -, -, -⟩ := mkChainOwned_ok ntupleName srcs2 options ch hc
  obtain ⟨-, -, s0x, h0x, hbr⟩ := InitializeVariables_ok srcs2 _ _ _ hiv
  have hs02 : s02 = s0x := by
    have := h02.symm.trans h0x
    exact Option.some.injEq _ _ ▸ this
  subst hs02
  obtain ⟨-, -, -, hstep⟩ := buildRows_spec s02.descriptor.GetNColumns srcs2 _ _ hbr
  obtain ⟨prev, contrib, -, hcontrib2, -⟩ := hstep i si hi
  obtain ⟨-, cfacts⟩ :=
    sourceColContrib_ok s02.descriptor.GetNColumns si contrib hcontrib2
  obtain ⟨cd, r, hcd, -, -⟩ := cfacts 0 hcols2
  have hlt := getElem?_some_lt hcd
  refine ⟨by unfold RNTupleDescriptor.GetNClusters; omega, ?_⟩
  rw [hcd]
  rfl

/-- Claim C10 witness: chaining source A with the zero-cluster source makes
the last-cluster index wrap to 2^64 - 1 and construction fail out of range. -/
theorem claim_C10_zero_cluster_wrap_witness :
    wrapSub1 srcZ.descriptor.GetNClusters = 2 ^ 64 - 1 ∧
    srcZ.descriptor.GetClusterDescriptor (wrapSub1 srcZ.descriptor.GetNClusters) = none ∧
    mkChainOwned "ntpl" [srcA, srcZ] optsT = Except.error ChainErr.atOutOfRange := by
  obtain ⟨h1, h2, h3, -⟩ := claim_C10_zero_cluster_wrap "ntpl" [srcA, srcZ] optsT
    srcA srcZ 1 rfl (by decide) rfl rfl
  exact ⟨h1, h2, h3⟩
